import Mathlib

/-!
Verification of the PrintNode label relay service.

The service receives e-commerce order webhooks, expands each order into one
print-job attempt per (line item, quantity unit), submits each attempt to the
PrintNode API, records per-attempt outcomes, and supports retrying failed
attempts.  The repository contains several iterations of the same Express
service; the definitions below embed, per variant:

* the in-memory/SQLite variant's `POST /webhooks` handler and
  `POST /api/retry-job/:jobAttemptId` handler (`webhook000`, `retry000`);
* the MongoDB variants' `POST /webhooks` handler, `processOrderInBackground`
  engine and `POST /api/retry-job/:jobAttemptId` handler
  (`webhook001`, `processOrderInBackground`, `retry001`);
* the hand-rolled concurrency limiter `createLimit` of the cron-polled
  variant (`LimitState`, `limitProcess`, `LimitStep`).

External collaborators (PDF rendering, the PrintNode HTTP call) are modelled
as oracles `Except String _`: `.ok` is a successful call, `.error e` a raised
error with message `e`.
-/

namespace PrintRelay

/-! ## Decimal string representation

JavaScript template literals such as `` `${orderNumber}-${item.id || i}-${j + 1}` ``
stringify numbers in decimal.  `natStr` is the decimal representation of a `Nat`,
written with explicit fuel so that it is structurally recursive. -/

/-- The character for a single decimal digit. -/
def digitToChar (d : Nat) : Char := Char.ofNat (48 + d)

/-- Fuel-driven accumulator loop producing the decimal digits of `n` in front
of `acc`, most significant first. -/
def natStrAux : Nat → Nat → List Char → List Char
  | 0, _, acc => acc
  | fuel + 1, n, acc =>
    if n < 10 then digitToChar n :: acc
    else natStrAux fuel (n / 10) (digitToChar (n % 10) :: acc)

/-- Decimal representation of a natural number, as JavaScript prints it. -/
def natStr (n : Nat) : String := ⟨natStrAux (n + 1) n []⟩

/-- Reference decimal digit list, used only in proofs. -/
def decChars (n : Nat) : List Char :=
  if h : n < 10 then [digitToChar n]
  else decChars (n / 10) ++ [digitToChar (n % 10)]
  termination_by n
  decreasing_by
    exact Nat.div_lt_self (by omega) (by omega)

/-! ## Attempt identifiers

Both webhook variants derive the attempt identifier of one printed unit as
`` `${orderNumber}-${key}-${j + 1}` `` where `key` stands for
`item.id || i` (SQLite / in-memory variant, `i` the line-item index) or
`item.id || 'no-id'` (MongoDB variants), and `j` counts units within the
line item. -/

/-- Attempt identifier `` `${ord}-${key}-${unit}` ``. -/
def mkAttemptId (ord key : String) (unit : Nat) : String :=
  ord ++ "-" ++ key ++ "-" ++ natStr unit

/-! ## Data model

The inbound Shopify order payload, its line items, and the `orderInfo`
snapshot the handlers build from it.  Optional JSON fields are `Option`;
a JavaScript falsy string (absent or empty `name`) is modelled by `""`. -/

structure Customer where
  first_name : String
  last_name : String
deriving DecidableEq

structure LineItem where
  id : Option Nat
  title : String
  variant_title : Option String
  sku : String
  quantity : Nat
  price : String
deriving DecidableEq

structure Order where
  id : Option Nat
  name : String
  order_number : String
  line_items : List LineItem
  currency : Option String
  note : Option String
  customer : Option Customer
  shipping_address : Option String
deriving DecidableEq

/-- `order.name || order.order_number`. -/
def orderNumberOf (o : Order) : String :=
  if o.name = "" then o.order_number else o.name

/-- The `orderInfo` object assembled by the webhook handlers. -/
structure OrderInfo where
  orderId : Option Nat
  orderNumber : String
  currency : Option String
  customerName : Option String
  shippingAddress : Option String
  note : Option String
deriving DecidableEq

/-- `customer ? `${first_name} ${last_name}` : null`. -/
def customerNameOf (o : Order) : Option String :=
  o.customer.map (fun c => c.first_name ++ " " ++ c.last_name)

/-- `orderInfo` of the in-memory/SQLite webhook handler
(`currency = order.currency || 'VND'`). -/
def orderInfo000 (o : Order) : OrderInfo :=
  { orderId := o.id
    orderNumber := orderNumberOf o
    currency := some (match o.currency with
      | some c => if c = "" then "VND" else c
      | none => "VND")
    customerName := customerNameOf o
    shippingAddress := o.shipping_address
    note := o.note }

/-- `orderInfo` of the MongoDB webhook handlers (`currency: order.currency`). -/
def orderInfo001 (o : Order) : OrderInfo :=
  { orderId := o.id
    orderNumber := orderNumberOf o
    currency := o.currency
    customerName := customerNameOf o
    shippingAddress := o.shipping_address
    note := o.note }

/-- The `{item, orderInfo}` retry snapshot captured at expansion time. -/
structure Snapshot where
  item : LineItem
  orderInfo : OrderInfo
deriving DecidableEq

/-- `item.id || i` — the line-item key of the in-memory/SQLite variant,
falling back to the loop index `i` when `id` is absent or `0` (falsy). -/
def key000 (item : LineItem) (i : Nat) : String :=
  match item.id with
  | some n => if n = 0 then natStr i else natStr n
  | none => natStr i

/-- `item.id || 'no-id'` — the line-item key of the MongoDB variants. -/
def key001 (item : LineItem) : String :=
  match item.id with
  | some n => if n = 0 then "no-id" else natStr n
  | none => "no-id"

/-- The nested `for (item of lineItems) for (j = 0; j < item.quantity; j++)`
loops, flattened in dispatch order: `(i, item, j)` is unit `j` of the `i`-th
line item. -/
def expandAux (i : Nat) : List LineItem → List (Nat × LineItem × Nat)
  | [] => []
  | item :: rest =>
      ((List.range item.quantity).map (fun j => (i, item, j))) ++ expandAux (i + 1) rest

def expandUnits (items : List LineItem) : List (Nat × LineItem × Nat) :=
  expandAux 0 items

/-- `Σ qᵢ`: the total number of physical labels an order calls for. -/
def sumQ (o : Order) : Nat := (o.line_items.map (fun item => item.quantity)).sum

/-! ## MongoDB variants: `PrintJob` documents and `processOrderInBackground`

The `PrintJobSchema` document, with `job_attempt_id` unique.  The store is the
collection in insertion order; `Mongoose`'s unique index makes a second
`save()` of an existing `job_attempt_id` reject, which aborts that task before
any external call. -/

inductive MStatus
  | pending
  | sent
  | failed
deriving DecidableEq

structure MJob where
  printnode_job_id : Option Nat
  job_attempt_id : String
  order_id : String
  product_name : String
  variant_title : Option String
  sku : String
  quantity : Nat
  price : String
  status : MStatus
  error_message : Option String
  retry_data : Option Snapshot
deriving DecidableEq

/-- Observable actions of one background print task, in program order. -/
inductive Ev
  | insertPending (aid : String)
  | insertDup (aid : String)
  | callRender (aid : String)
  | callSubmit (aid : String)
  | markSent (aid : String) (v : Nat)
  | markFailed (aid : String) (e : String)
deriving DecidableEq

/-- The `new PrintJob({..., status: 'pending', retry_data: retryData})`
document saved before any external call. -/
def pendingJob001 (aid ord : String) (item : LineItem) (snap : Snapshot) : MJob :=
  { printnode_job_id := none
    job_attempt_id := aid
    order_id := ord
    product_name := item.title
    variant_title := item.variant_title
    sku := item.sku
    quantity := item.quantity
    price := item.price
    status := MStatus.pending
    error_message := none
    retry_data := some snap }

/-- One `limit(async () => {...})` task of `processOrderInBackground`: save the
pending document, render the label, submit it to PrintNode, then mark the same
document `sent` (with the vendor job id) or `failed` (with the error message).
`ro i j` / `so i j` are the render / submission outcomes for unit `j` of line
item `i`.  Returns the new store and the task's event trace. -/
def unit001 (ord : String) (info : OrderInfo) (item : LineItem) (i j : Nat)
    (ro : Nat → Nat → Except String Unit) (so : Nat → Nat → Except String Nat)
    (store : List MJob) : List MJob × List Ev :=
  let aid := mkAttemptId ord (key001 item) (j + 1)
  if store.any (fun r => r.job_attempt_id = aid) then
    (store, [Ev.insertDup aid])
  else
    let p := pendingJob001 aid ord item ⟨item, info⟩
    match ro i j with
    | Except.error e =>
        (store ++ [{ p with status := MStatus.failed, error_message := some e }],
         [Ev.insertPending aid, Ev.callRender aid, Ev.markFailed aid e])
    | Except.ok _ =>
        match so i j with
        | Except.ok v =>
            (store ++ [{ p with status := MStatus.sent, printnode_job_id := some v }],
             [Ev.insertPending aid, Ev.callRender aid, Ev.callSubmit aid, Ev.markSent aid v])
        | Except.error e =>
            (store ++ [{ p with status := MStatus.failed, error_message := some e }],
             [Ev.insertPending aid, Ev.callRender aid, Ev.callSubmit aid, Ev.markFailed aid e])

/-- Runs the expanded units' tasks in dispatch order (the p-limit queue starts
tasks in submission order; each task's effect on the collection is as in
`unit001`). -/
def runUnits001 (ord : String) (info : OrderInfo)
    (ro : Nat → Nat → Except String Unit) (so : Nat → Nat → Except String Nat) :
    List (Nat × LineItem × Nat) → List MJob → List MJob × List Ev
  | [], store => (store, [])
  | (i, item, j) :: rest, store =>
      let su := unit001 ord info item i j ro so store
      let sr := runUnits001 ord info ro so rest su.1
      (sr.1, su.2 ++ sr.2)

/-- `processOrderInBackground(order)` of the MongoDB variants: expand the order
into per-unit tasks and run them. -/
def processOrderInBackground (o : Order)
    (ro : Nat → Nat → Except String Unit) (so : Nat → Nat → Except String Nat)
    (store : List MJob) : List MJob × List Ev :=
  runUnits001 (orderNumberOf o) (orderInfo001 o) ro so (expandUnits o.line_items) store

/-- The attempt identifiers an order expands to, in dispatch order. -/
def expandedIds001 (o : Order) : List String :=
  (expandUnits o.line_items).map
    (fun u => mkAttemptId (orderNumberOf o) (key001 u.2.1) (u.2.2 + 1))

structure WResp where
  status : Nat
  message : String
deriving DecidableEq

/-- The MongoDB variants' `POST /webhooks` handler: if any `PrintJob` with this
`order_id` exists, acknowledge and ignore; otherwise acknowledge and process
the order in the background. -/
def webhook001 (o : Order)
    (ro : Nat → Nat → Except String Unit) (so : Nat → Nat → Except String Nat)
    (store : List MJob) : List MJob × WResp :=
  let ord := orderNumberOf o
  if store.any (fun r => r.order_id = ord) then
    (store, ⟨200, "Duplicate webhook ignored."⟩)
  else
    ((processOrderInBackground o ro so store).1,
     ⟨200, "Order " ++ ord ++ " accepted."⟩)

structure RetryResp where
  status : Nat
deriving DecidableEq

/-- `PrintJob.findOne({job_attempt_id})`: first document with the identifier. -/
def findJob001 (store : List MJob) (aid : String) : Option MJob :=
  store.find? (fun j => j.job_attempt_id = aid)

/-- The record `PrintJob.create({...})` inserts on a successful retry. -/
def retryRecord (j : MJob) (snap : Snapshot) (newAid : String) (v : Nat) : MJob :=
  { printnode_job_id := some v
    job_attempt_id := newAid
    order_id := snap.orderInfo.orderNumber
    product_name := snap.item.title
    variant_title := snap.item.variant_title
    sku := snap.item.sku
    quantity := snap.item.quantity
    price := snap.item.price
    status := MStatus.sent
    error_message := none
    retry_data := some snap }

/-- The MongoDB variants' `POST /api/retry-job/:jobAttemptId` handler: 404 when
the job is absent or has no `retry_data`; otherwise re-render and re-submit
from the snapshot, and on success create a fresh `sent` document whose id is
the original id suffixed `-retry-<Date.now()>` (`ts`), carrying the same
snapshot; the original document is never written.  A failed submission (or a
unique-index rejection of the new document) is caught and answered 500. -/
def retry001 (aid : String) (ts : Nat) (out : Except String Nat)
    (store : List MJob) : List MJob × RetryResp :=
  match findJob001 store aid with
  | none => (store, ⟨404⟩)
  | some j =>
    match j.retry_data with
    | none => (store, ⟨404⟩)
    | some snap =>
      match out with
      | Except.error _ => (store, ⟨500⟩)
      | Except.ok v =>
          let newAid := j.job_attempt_id ++ "-retry-" ++ natStr ts
          if store.any (fun r => r.job_attempt_id = newAid) then (store, ⟨500⟩)
          else (store ++ [retryRecord j snap newAid v], ⟨200⟩)

/-! ## In-memory/SQLite variant: the `printJobs` array

This variant's `POST /webhooks` handler processes all units inline (no
idempotency gate, no pending state): each unit is rendered and submitted, and
a `sent` or `failed` record is `unshift`ed onto the `printJobs` array.  Failed
records carry the `{item, orderInfo}` retry snapshot; only success records
carry `quantity`, only failed records carry `error`. -/

inductive MemStatus
  | sent
  | failed
deriving DecidableEq

structure MemJob where
  id : Option Nat
  jobAttemptId : String
  orderId : String
  productName : String
  variantTitle : Option String
  sku : String
  quantity : Option Nat
  status : MemStatus
  error : Option String
  retryData : Option Snapshot
deriving DecidableEq

/-- `createProductLabelPDF` followed by `sendToPrintNode` for unit `j` of item
`i`: the submission runs only when rendering succeeded, and either error is
caught by the same handler. -/
def unitOutcome (ro : Nat → Nat → Except String Unit)
    (so : Nat → Nat → Except String Nat) (i j : Nat) : Except String Nat :=
  match ro i j with
  | Except.error e => Except.error e
  | Except.ok _ => so i j

/-- The `jobRecord` / `failedJobRecord` the in-memory webhook handler builds
for one unit. -/
def mkRecord000 (ord : String) (info : OrderInfo) (item : LineItem) (i j : Nat)
    (out : Except String Nat) : MemJob :=
  let aid := mkAttemptId ord (key000 item i) (j + 1)
  match out with
  | Except.ok v =>
      { id := some v
        jobAttemptId := aid
        orderId := ord
        productName := item.title
        variantTitle := item.variant_title
        sku := item.sku
        quantity := some item.quantity
        status := MemStatus.sent
        error := none
        retryData := none }
  | Except.error e =>
      { id := none
        jobAttemptId := aid
        orderId := ord
        productName := item.title
        variantTitle := item.variant_title
        sku := item.sku
        quantity := none
        status := MemStatus.failed
        error := some e
        retryData := some ⟨item, info⟩ }

/-- The webhook handler's nested loops: per unit, build the record, `unshift`
it onto `printJobs` and push it onto `printResults`. -/
def run000 (ord : String) (info : OrderInfo)
    (ro : Nat → Nat → Except String Unit) (so : Nat → Nat → Except String Nat) :
    List (Nat × LineItem × Nat) → List MemJob → List MemJob → List MemJob × List MemJob
  | [], store, results => (store, results)
  | (i, item, j) :: rest, store, results =>
      let r := mkRecord000 ord info item i j (unitOutcome ro so i j)
      run000 ord info ro so rest (r :: store) (results ++ [r])

structure Resp000 where
  status : Nat
  printed : Nat
  failed : Nat
  results : List MemJob
deriving DecidableEq

/-- The in-memory/SQLite `POST /webhooks` handler: process every unit inline,
cap `printJobs` at 100, and answer 200 with printed/failed counts and the
per-attempt results. -/
def webhook000 (o : Order)
    (ro : Nat → Nat → Except String Unit) (so : Nat → Nat → Except String Nat)
    (store : List MemJob) : List MemJob × Resp000 :=
  let ord := orderNumberOf o
  let info := orderInfo000 o
  let sr := run000 ord info ro so (expandUnits o.line_items) store []
  let store' := if sr.1.length > 100 then sr.1.take 100 else sr.1
  (store',
   { status := 200
     printed := (sr.2.filter (fun r => r.status = MemStatus.sent)).length
     failed := (sr.2.filter (fun r => r.status = MemStatus.failed)).length
     results := sr.2 })

/-- `printJobs.find(job => job.jobAttemptId === jobAttemptId)`. -/
def findJob000 (store : List MemJob) (aid : String) : Option MemJob :=
  store.find? (fun j => j.jobAttemptId = aid)

/-- In-place mutation of the first matching array element. -/
def updateFirst (p : α → Bool) (f : α → α) : List α → List α
  | [] => []
  | x :: xs => if p x then f x :: xs else x :: updateFirst p f xs

/-- The in-memory variant's `POST /api/retry-job/:jobAttemptId` handler:
404 when no job has the identifier; 400 when the job is not `failed` or has
no `retryData`; otherwise re-render and re-submit from the snapshot (`out`).
Success mutates the job in place to `sent` (new vendor id, error cleared,
`retryData` deleted) and answers 200; failure records the new error message
on the job and answers 500, leaving status and `retryData` untouched. -/
def retry000 (aid : String) (out : Except String Nat)
    (store : List MemJob) : List MemJob × RetryResp :=
  match findJob000 store aid with
  | none => (store, ⟨404⟩)
  | some j =>
    if j.status ≠ MemStatus.failed then (store, ⟨400⟩)
    else
      match j.retryData with
      | none => (store, ⟨400⟩)
      | some _ =>
        match out with
        | Except.ok v =>
            (updateFirst (fun r => r.jobAttemptId = aid)
              (fun r =>
                { r with
                  id := some v
                  status := MemStatus.sent
                  error := none
                  retryData := none }) store,
             ⟨200⟩)
        | Except.error e =>
            (updateFirst (fun r => r.jobAttemptId = aid)
              (fun r => { r with error := some e }) store,
             ⟨500⟩)

/-- `n` successive retries of the same attempt, the `k`-th failing with
message `es k`. -/
def retryFailN (aid : String) (es : Nat → String) (store : List MemJob) :
    Nat → List MemJob
  | 0 => store
  | n + 1 => retryFailN aid es (retry000 aid (Except.error (es n)) store).1 n

/-! ## The hand-rolled concurrency limiter `createLimit`

`createLimit(concurrency)` keeps a `running` counter and a FIFO `queue`;
`process()` starts the next queued task only when `running < concurrency`,
incrementing `running`; submission pushes onto the queue and calls
`process()`; a finishing task decrements `running` and calls `process()`.
Queued tasks are abstract labels. -/

structure LimitState where
  running : Nat
  queue : List Nat
deriving DecidableEq

/-- One synchronous `process()` call. -/
def limitProcess (concurrency : Nat) (s : LimitState) : LimitState :=
  if s.running ≥ concurrency ∨ s.queue = [] then s
  else { running := s.running + 1, queue := s.queue.tail }

/-- Atomic transitions of the limiter: submitting a task (push + `process()`)
and a running task finishing (`running--` + `process()`). -/
inductive LimitStep (concurrency : Nat) : LimitState → LimitState → Prop
  | submit (t : Nat) (s : LimitState) :
      LimitStep concurrency s (limitProcess concurrency { s with queue := s.queue ++ [t] })
  | finish (s : LimitState) (h : 0 < s.running) :
      LimitStep concurrency s (limitProcess concurrency { s with running := s.running - 1 })

/-- States reachable from the limiter's initial state (`running = 0`, empty
queue). -/
inductive LimitReachable (concurrency : Nat) : LimitState → Prop
  | init : LimitReachable concurrency ⟨0, []⟩
  | step {s s' : LimitState} : LimitReachable concurrency s →
      LimitStep concurrency s s' → LimitReachable concurrency s'


/-! ## Trace predicates and helpers used by the theorems -/

/-- Attempt identifiers whose pending row has been inserted, after `e`. -/
def seenUpdate (seen : List String) : Ev → List String
  | Ev.insertPending a => a :: seen
  | _ => seen

/-- An external call (render or submit) is admissible only for an attempt
whose pending row was already inserted. -/
def callCheck (seen : List String) : Ev → Bool
  | Ev.callRender a => seen.contains a
  | Ev.callSubmit a => seen.contains a
  | _ => true

/-- Every render/submit call in the trace is preceded by the insertion of that
attempt's pending row. -/
def callsOk (seen : List String) : List Ev → Bool
  | [] => true
  | e :: t => callCheck seen e && callsOk (seenUpdate seen e) t

/-- The inserted attempt identifiers accumulated over a trace. -/
def seenAfter (seen : List String) : List Ev → List String
  | [] => seen
  | e :: t => seenAfter (seenUpdate seen e) t

/-- Whether an external call succeeded. -/
def isOkB : Except String Nat → Bool
  | Except.ok _ => true
  | Except.error _ => false

/-- The looked-up attempt is still a `failed` row carrying the snapshot. -/
def stillRetriable (snap : Snapshot) : Option MemJob → Prop
  | some j => j.status = MemStatus.failed ∧ j.retryData = some snap
  | none => False

/-! ## Concrete sample data (used by witnesses and counterexamples) -/

def itemA : LineItem :=
  { id := some 11, title := "Iced Latte", variant_title := some "ICED"
    sku := "SKU1", quantity := 2, price := "56" }

def itemB : LineItem :=
  { id := some 22, title := "Green Tea", variant_title := none
    sku := "SKU2", quantity := 1, price := "30" }

/-- A line item without an `id` (falsy in JavaScript). -/
def itemN1 : LineItem :=
  { id := none, title := "Plain A", variant_title := none
    sku := "S1", quantity := 1, price := "1" }

/-- A second distinct line item that also lacks an `id`. -/
def itemN2 : LineItem :=
  { id := none, title := "Plain B", variant_title := none
    sku := "S2", quantity := 1, price := "2" }

def orderAB : Order :=
  { id := some 9, name := "#1001", order_number := "1001"
    line_items := [itemA, itemB], currency := some "VND"
    note := some "less sugar", customer := none, shipping_address := none }

/-- An order whose two line items both lack an `id`. -/
def orderNN : Order :=
  { id := some 8, name := "#77", order_number := "77"
    line_items := [itemN1, itemN2], currency := none
    note := none, customer := none, shipping_address := none }

def okRender : Nat → Nat → Except String Unit := fun _ _ => Except.ok ()

def okSubmit : Nat → Nat → Except String Nat := fun i j => Except.ok (100 + 10 * i + j)

/-- A submission client that fails exactly on unit 0 of line item 0. -/
def failSubmit00 : Nat → Nat → Except String Nat :=
  fun i j => if i = 0 && j = 0 then Except.error "boom" else Except.ok (100 + 10 * i + j)

/-- A failed in-memory attempt for unit 1 of `itemA`, with its snapshot. -/
def failedJob : MemJob :=
  mkRecord000 "#1001" (orderInfo000 orderAB) itemA 0 0 (Except.error "printer down")

/-- A sent in-memory attempt (no snapshot, no error). -/
def sentJob : MemJob :=
  mkRecord000 "#1001" (orderInfo000 orderAB) itemA 0 1 (Except.ok 42)

/-- A failed MongoDB attempt that carries a retry snapshot. -/
def mongoFailedJob : MJob :=
  { pendingJob001 "#1001-11-1" "#1001" itemA ⟨itemA, orderInfo001 orderAB⟩ with
    status := MStatus.failed, error_message := some "printer down" }

/-- A failed MongoDB attempt without `retry_data`. -/
def mongoNoSnapJob : MJob :=
  { printnode_job_id := none, job_attempt_id := "J1", order_id := "#5"
    product_name := "X", variant_title := none, sku := "s", quantity := 1
    price := "1", status := MStatus.failed, error_message := some "err"
    retry_data := none }

/-! ## Proofs: decimal strings and attempt-identifier injectivity -/

theorem decChars_lt (n : Nat) (h : n < 10) : decChars n = [digitToChar n] := by
  rw [decChars]; simp [h]

theorem decChars_ge (n : Nat) (h : ¬ n < 10) :
    decChars n = decChars (n / 10) ++ [digitToChar (n % 10)] := by
  rw [decChars]; simp [h]

theorem natStrAux_eq_decChars (n : Nat) :
    ∀ fuel acc, n < fuel → natStrAux fuel n acc = decChars n ++ acc := by
  induction n using Nat.strong_induction_on with
  | _ n ih =>
    intro fuel acc hfuel
    match fuel with
    | 0 => omega
    | fuel + 1 =>
      by_cases h : n < 10
      · simp [natStrAux, h, decChars_lt n h]
      · have hn10 : n / 10 < n := Nat.div_lt_self (by omega) (by omega)
        have hfuel' : n / 10 < fuel := by omega
        simp [natStrAux, h, ih (n / 10) hn10 fuel _ hfuel', decChars_ge n h]

theorem natStr_data (n : Nat) : (natStr n).data = decChars n := by
  show natStrAux (n + 1) n [] = decChars n
  rw [natStrAux_eq_decChars n (n + 1) [] (by omega), List.append_nil]

theorem digitToChar_inj : ∀ d₁ < 10, ∀ d₂ < 10,
    digitToChar d₁ = digitToChar d₂ → d₁ = d₂ := by decide

theorem digitToChar_ne_dash : ∀ d < 10, digitToChar d ≠ '-' := by decide

theorem decChars_ne_nil (n : Nat) : decChars n ≠ [] := by
  by_cases h : n < 10
  · rw [decChars_lt n h]; simp
  · rw [decChars_ge n h]; simp

theorem decChars_inj (n : Nat) : ∀ m, decChars n = decChars m → n = m := by
  induction n using Nat.strong_induction_on with
  | _ n ih =>
    intro m heq
    by_cases hn : n < 10 <;> by_cases hm : m < 10
    · rw [decChars_lt n hn, decChars_lt m hm] at heq
      simp only [List.cons.injEq, and_true] at heq
      exact digitToChar_inj n hn m hm heq
    · exfalso
      rw [decChars_lt n hn, decChars_ge m hm] at heq
      have hlen := congrArg List.length heq
      simp only [List.length_append, List.length_singleton] at hlen
      have h0 : (decChars (m / 10)).length = 0 := by omega
      exact decChars_ne_nil (m / 10) (List.length_eq_zero.mp h0)
    · exfalso
      rw [decChars_ge n hn, decChars_lt m hm] at heq
      have hlen := congrArg List.length heq
      simp only [List.length_append, List.length_singleton] at hlen
      have h0 : (decChars (n / 10)).length = 0 := by omega
      exact decChars_ne_nil (n / 10) (List.length_eq_zero.mp h0)
    · rw [decChars_ge n hn, decChars_ge m hm] at heq
      have hlen : ([digitToChar (n % 10)] : List Char).length
          = ([digitToChar (m % 10)] : List Char).length := rfl
      obtain ⟨h1, h2⟩ := List.append_inj' heq hlen
      have hdvd : n / 10 = m / 10 :=
        ih (n / 10) (Nat.div_lt_self (by omega) (by omega)) (m / 10) h1
      simp only [List.cons.injEq, and_true] at h2
      have hmod : n % 10 = m % 10 :=
        digitToChar_inj (n % 10) (Nat.mod_lt _ (by omega)) (m % 10)
          (Nat.mod_lt _ (by omega)) h2
      omega

theorem natStr_inj {n m : Nat} (h : natStr n = natStr m) : n = m := by
  apply decChars_inj n m
  rw [← natStr_data, ← natStr_data, h]

theorem decChars_no_dash (n : Nat) : '-' ∉ decChars n := by
  induction n using Nat.strong_induction_on with
  | _ n ih =>
    by_cases h : n < 10
    · rw [decChars_lt n h]
      simp [Ne.symm (digitToChar_ne_dash n h)]
    · rw [decChars_ge n h]
      simp only [List.mem_append, List.mem_singleton]
      push_neg
      exact ⟨ih (n / 10) (Nat.div_lt_self (by omega) (by omega)),
        Ne.symm (digitToChar_ne_dash (n % 10) (Nat.mod_lt _ (by omega)))⟩

theorem natStr_no_dash (n : Nat) : '-' ∉ (natStr n).data := by
  rw [natStr_data]; exact decChars_no_dash n

theorem split_first_dash :
    ∀ (x : List Char) (p : List Char) (y : List Char) (q : List Char),
      '-' ∉ x → '-' ∉ y → x ++ '-' :: p = y ++ '-' :: q → x = y ∧ p = q := by
  intro x
  induction x with
  | nil =>
    intro p y q _ hy heq
    cases y with
    | nil => simpa using heq
    | cons c y' =>
      exfalso
      simp only [List.nil_append, List.cons_append, List.cons.injEq] at heq
      exact hy (heq.1 ▸ List.mem_cons_self _ _)
  | cons c x' ih =>
    intro p y q hx hy heq
    cases y with
    | nil =>
      exfalso
      simp only [List.cons_append, List.nil_append, List.cons.injEq] at heq
      exact hx (heq.1 ▸ List.mem_cons_self _ _)
    | cons d y' =>
      simp only [List.cons_append, List.cons.injEq] at heq
      have hx' : '-' ∉ x' := fun h => hx (List.mem_cons_of_mem _ h)
      have hy' : '-' ∉ y' := fun h => hy (List.mem_cons_of_mem _ h)
      obtain ⟨h1, h2⟩ := ih p y' q hx' hy' heq.2
      exact ⟨by rw [heq.1, h1], h2⟩

theorem string_append_data (s t : String) : (s ++ t).data = s.data ++ t.data := rfl

theorem mkAttemptId_data (ord key : String) (unit : Nat) :
    (mkAttemptId ord key unit).data
      = ord.data ++ '-' :: (key.data ++ '-' :: (natStr unit).data) := by
  show (ord ++ "-" ++ key ++ "-" ++ natStr unit).data = _
  simp only [string_append_data]
  simp [List.append_assoc]

/-- Within one order, the attempt identifier determines the line-item key and
the unit number: `` `${ord}-${k₁}-${u₁}` = `${ord}-${k₂}-${u₂}` `` forces
`k₁ = k₂` and `u₁ = u₂` (the unit suffix is a digit string, so the final
dash is unambiguous). -/
theorem mkAttemptId_inj {ord k₁ k₂ : String} {u₁ u₂ : Nat}
    (h : mkAttemptId ord k₁ u₁ = mkAttemptId ord k₂ u₂) : k₁ = k₂ ∧ u₁ = u₂ := by
  have hdata := congrArg String.data h
  rw [mkAttemptId_data, mkAttemptId_data] at hdata
  have h2 : k₁.data ++ '-' :: (natStr u₁).data = k₂.data ++ '-' :: (natStr u₂).data := by
    have := List.append_cancel_left hdata
    simpa using this
  have h3 := congrArg List.reverse h2
  simp only [List.reverse_append, List.reverse_cons] at h3
  have h3' : (natStr u₁).data.reverse ++ '-' :: k₁.data.reverse
      = (natStr u₂).data.reverse ++ '-' :: k₂.data.reverse := by
    simpa [List.append_assoc] using h3
  have hnd1 : '-' ∉ (natStr u₁).data.reverse := by
    simpa [List.mem_reverse] using natStr_no_dash u₁
  have hnd2 : '-' ∉ (natStr u₂).data.reverse := by
    simpa [List.mem_reverse] using natStr_no_dash u₂
  obtain ⟨hu, hk⟩ := split_first_dash _ _ _ _ hnd1 hnd2 h3'
  refine ⟨?_, ?_⟩
  · apply String.ext
    have := congrArg List.reverse hk
    simpa using this
  · apply natStr_inj
    apply String.ext
    have := congrArg List.reverse hu
    simpa using this

theorem expandAux_length (i : Nat) (items : List LineItem) :
    (expandAux i items).length = (items.map (fun item => item.quantity)).sum := by
  induction items generalizing i with
  | nil => rfl
  | cons item rest ih =>
    simp [expandAux, ih]

theorem expandUnits_length (o : Order) :
    (expandUnits o.line_items).length = sumQ o := expandAux_length 0 o.line_items

/-! ## Proofs: the bounded scheduler -/

theorem limitProcess_running_le (concurrency : Nat) (s : LimitState)
    (h : s.running ≤ concurrency) :
    (limitProcess concurrency s).running ≤ concurrency := by
  unfold limitProcess
  split
  · exact h
  · rename_i hc
    push_neg at hc
    simpa using hc.1

/-- C3: in the bounded scheduler `createLimit(K)` (the service constructs it
with ceiling `K = 3`), every state reachable from the initial state by
submissions and task completions has at most `K` tasks running
simultaneously, so never more than `K` submission-client calls are in flight
at once. -/
theorem c3_at_most_K_concurrent (concurrency : Nat) (s : LimitState)
    (h : LimitReachable concurrency s) : s.running ≤ concurrency := by
  induction h with
  | init => exact Nat.zero_le _
  | step _ hstep ih =>
      cases hstep with
      | submit t s => exact limitProcess_running_le _ _ ih
      | finish s hpos =>
          exact limitProcess_running_le _ _ (Nat.le_trans (Nat.sub_le _ _) ih)

theorem c3_at_most_K_concurrent_witness :
    (limitProcess 3 ⟨0, [5]⟩).running ≤ 3 :=
  c3_at_most_K_concurrent 3 _
    (LimitReachable.step LimitReachable.init (LimitStep.submit 5 ⟨0, []⟩))

/-! ## Proofs: pending row inserted before any external call -/

theorem callsOk_append (t₁ t₂ : List Ev) (seen : List String) :
    callsOk seen (t₁ ++ t₂) = (callsOk seen t₁ && callsOk (seenAfter seen t₁) t₂) := by
  induction t₁ generalizing seen with
  | nil => simp [callsOk, seenAfter]
  | cons e t ih => simp [callsOk, seenAfter, ih, Bool.and_assoc]

theorem unit001_callsOk (ord : String) (info : OrderInfo) (item : LineItem)
    (i j : Nat) (ro : Nat → Nat → Except String Unit)
    (so : Nat → Nat → Except String Nat) (store : List MJob)
    (seen : List String) :
    callsOk seen (unit001 ord info item i j ro so store).2 = true := by
  cases hdup : store.any (fun r => r.job_attempt_id = mkAttemptId ord (key001 item) (j + 1)) with
  | true => simp [unit001, hdup, callsOk, callCheck]
  | false =>
    cases hro : ro i j with
    | error e =>
        simp [unit001, hdup, hro, callsOk, callCheck, seenUpdate, List.contains_cons]
    | ok u =>
        cases hso : so i j with
        | ok v =>
            simp [unit001, hdup, hro, hso, callsOk, callCheck, seenUpdate, List.contains_cons]
        | error e =>
            simp [unit001, hdup, hro, hso, callsOk, callCheck, seenUpdate, List.contains_cons]

theorem runUnits001_callsOk (ord : String) (info : OrderInfo)
    (ro : Nat → Nat → Except String Unit) (so : Nat → Nat → Except String Nat) :
    ∀ (units : List (Nat × LineItem × Nat)) (store : List MJob) (seen : List String),
      callsOk seen (runUnits001 ord info ro so units store).2 = true := by
  intro units
  induction units with
  | nil => intro store seen; rfl
  | cons u rest ih =>
    intro store seen
    obtain ⟨i, item, j⟩ := u
    simp only [runUnits001]
    rw [callsOk_append, unit001_callsOk, ih]
    rfl

/-- C4: in the MongoDB variants' background engine, every render call and
every vendor submission call for a unit is preceded, in the task's event
trace, by the insertion of that unit's attempt row with status `pending`
(`callsOk` demands an `Ev.insertPending` for the same attempt id before any
`Ev.callRender`/`Ev.callSubmit`). -/
theorem c4_pending_before_external (o : Order)
    (ro : Nat → Nat → Except String Unit) (so : Nat → Nat → Except String Nat)
    (store : List MJob) :
    callsOk [] (processOrderInBackground o ro so store).2 = true :=
  runUnits001_callsOk (orderNumberOf o) (orderInfo001 o) ro so
    (expandUnits o.line_items) store []

/-! ## Proofs: fan-out of an order into attempt rows (MongoDB engine) -/

theorem any_id_eq_false (store : List MJob) (aid : String)
    (h : aid ∉ store.map (fun r => r.job_attempt_id)) :
    store.any (fun r => r.job_attempt_id = aid) = false := by
  rw [List.any_eq_false]
  intro r hr
  simp only [decide_eq_true_eq]
  intro he
  exact h (List.mem_map.mpr ⟨r, hr, he⟩)

theorem unit001_ids_no_dup (ord : String) (info : OrderInfo) (item : LineItem)
    (i j : Nat) (ro : Nat → Nat → Except String Unit)
    (so : Nat → Nat → Except String Nat) (store : List MJob)
    (h : store.any (fun r => r.job_attempt_id = mkAttemptId ord (key001 item) (j + 1)) = false) :
    ((unit001 ord info item i j ro so store).1).map (fun r => r.job_attempt_id)
      = store.map (fun r => r.job_attempt_id) ++ [mkAttemptId ord (key001 item) (j + 1)] := by
  cases hro : ro i j with
  | error e => simp [unit001, h, hro, pendingJob001]
  | ok u =>
    cases hso : so i j with
    | ok v => simp [unit001, h, hro, hso, pendingJob001]
    | error e => simp [unit001, h, hro, hso, pendingJob001]

theorem unit001_mem (ord : String) (info : OrderInfo) (item : LineItem)
    (i j : Nat) (ro : Nat → Nat → Except String Unit)
    (so : Nat → Nat → Except String Nat) (store : List MJob) :
    ∀ r ∈ (unit001 ord info item i j ro so store).1, r ∈ store ∨ r.order_id = ord := by
  intro r hr
  cases hdup : store.any
      (fun s => s.job_attempt_id = mkAttemptId ord (key001 item) (j + 1)) with
  | true => simp only [unit001, hdup, if_pos rfl] at hr; exact Or.inl hr
  | false =>
    cases hro : ro i j with
    | error e =>
        simp only [unit001, hdup] at hr
        simp [hro, List.mem_append, pendingJob001] at hr
        rcases hr with hr | hr
        · exact Or.inl hr
        · right; rw [hr]
    | ok u =>
      cases hso : so i j with
      | ok v =>
          simp only [unit001, hdup] at hr
          simp [hro, hso, List.mem_append, pendingJob001] at hr
          rcases hr with hr | hr
          · exact Or.inl hr
          · right; rw [hr]
      | error e =>
          simp only [unit001, hdup] at hr
          simp [hro, hso, List.mem_append, pendingJob001] at hr
          rcases hr with hr | hr
          · exact Or.inl hr
          · right; rw [hr]

theorem runUnits001_mem (ord : String) (info : OrderInfo)
    (ro : Nat → Nat → Except String Unit) (so : Nat → Nat → Except String Nat) :
    ∀ (units : List (Nat × LineItem × Nat)) (store : List MJob),
      ∀ r ∈ (runUnits001 ord info ro so units store).1, r ∈ store ∨ r.order_id = ord := by
  intro units
  induction units with
  | nil => intro store r hr; exact Or.inl hr
  | cons u rest ih =>
    intro store r hr
    obtain ⟨i, item, j⟩ := u
    simp only [runUnits001] at hr
    rcases ih (unit001 ord info item i j ro so store).1 r hr with h | h
    · exact unit001_mem ord info item i j ro so store r h
    · exact Or.inr h

theorem runUnits001_ids (ord : String) (info : OrderInfo)
    (ro : Nat → Nat → Except String Unit) (so : Nat → Nat → Except String Nat) :
    ∀ (units : List (Nat × LineItem × Nat)) (store : List MJob),
      (units.map (fun u => mkAttemptId ord (key001 u.2.1) (u.2.2 + 1))).Nodup →
      (∀ a ∈ units.map (fun u => mkAttemptId ord (key001 u.2.1) (u.2.2 + 1)),
        a ∉ store.map (fun r => r.job_attempt_id)) →
      ((runUnits001 ord info ro so units store).1).map (fun r => r.job_attempt_id)
        = store.map (fun r => r.job_attempt_id)
          ++ units.map (fun u => mkAttemptId ord (key001 u.2.1) (u.2.2 + 1)) := by
  intro units
  induction units with
  | nil => intro store _ _; simp [runUnits001]
  | cons u rest ih =>
    intro store hnd hdisj
    obtain ⟨i, item, j⟩ := u
    simp only [List.map_cons, List.nodup_cons] at hnd
    obtain ⟨hhead, htail⟩ := hnd
    have hdhead : mkAttemptId ord (key001 item) (j + 1)
        ∉ store.map (fun r => r.job_attempt_id) := by
      apply hdisj
      simp
    have hany := any_id_eq_false store _ hdhead
    simp only [runUnits001]
    rw [ih (unit001 ord info item i j ro so store).1 htail ?_]
    · rw [unit001_ids_no_dup ord info item i j ro so store hany]
      simp
    · intro a ha hmem
      rw [unit001_ids_no_dup ord info item i j ro so store hany] at hmem
      rcases List.mem_append.mp hmem with hm | hm
      · exact hdisj a (by simp [ha]) hm
      · rw [List.mem_singleton] at hm
        obtain ⟨u', hu', rfl⟩ := List.mem_map.mp ha
        exact hhead (hm ▸ List.mem_map.mpr ⟨u', hu', rfl⟩)

theorem expandAux_mem_item :
    ∀ (items : List LineItem) (i : Nat) (u : Nat × LineItem × Nat),
      u ∈ expandAux i items → u.2.1 ∈ items := by
  intro items
  induction items with
  | nil => intro i u h; simp [expandAux] at h
  | cons item rest ih =>
    intro i u h
    simp only [expandAux, List.mem_append, List.mem_map, List.mem_range] at h
    rcases h with ⟨j, _, rfl⟩ | h
    · simp
    · exact List.mem_cons_of_mem _ (ih (i + 1) u h)

theorem expandAux_ids_nodup (ord : String) :
    ∀ (items : List LineItem) (i : Nat), (items.map key001).Nodup →
      ((expandAux i items).map
        (fun u => mkAttemptId ord (key001 u.2.1) (u.2.2 + 1))).Nodup := by
  intro items
  induction items with
  | nil => intro i _; simp [expandAux]
  | cons item rest ih =>
    intro i hnd
    rw [List.map_cons, List.nodup_cons] at hnd
    obtain ⟨hkey, hrest⟩ := hnd
    simp only [expandAux, List.map_append, List.map_map]
    rw [List.nodup_append]
    refine ⟨?_, ih (i + 1) hrest, ?_⟩
    · apply List.Nodup.map_on ?_ (List.nodup_range _)
      intro x _ y _ hxy
      have h2 := (mkAttemptId_inj hxy).2
      simp only [Function.comp] at h2
      omega
    · intro a ha hb
      simp only [List.mem_map, List.mem_range, Function.comp] at ha
      obtain ⟨j, _, rfl⟩ := ha
      obtain ⟨u', hu', he⟩ := List.mem_map.mp hb
      have hk := (mkAttemptId_inj he.symm).1
      exact hkey (List.mem_map.mpr
        ⟨u'.2.1, expandAux_mem_item rest (i + 1) u' hu', hk.symm⟩)

/-- C1 (amended): provided the line items' derived keys (`item.id`, with the
literal fallback `'no-id'` in the MongoDB variants) are pairwise distinct and
none of the order's expanded attempt ids is already stored, a single
background pass creates exactly `Σ qᵢ` attempt rows — appended in dispatch
order, their ids are exactly `expandedIds001`, one per (line item, unit)
pair, pairwise distinct, each derived deterministically from the order
number, the item key and the unit number. -/
theorem c1_fanout (o : Order) (ro : Nat → Nat → Except String Unit)
    (so : Nat → Nat → Except String Nat) (store : List MJob)
    (hkeys : (o.line_items.map key001).Nodup)
    (hdisj : ∀ r ∈ store, r.job_attempt_id ∉ expandedIds001 o) :
    ((processOrderInBackground o ro so store).1).map (fun r => r.job_attempt_id)
      = store.map (fun r => r.job_attempt_id) ++ expandedIds001 o
    ∧ (expandedIds001 o).length = sumQ o
    ∧ (expandedIds001 o).Nodup := by
  have hnd : (expandedIds001 o).Nodup := expandAux_ids_nodup _ o.line_items 0 hkeys
  refine ⟨?_, ?_, hnd⟩
  · apply runUnits001_ids
    · exact hnd
    · intro a ha hmem
      obtain ⟨r, hr, rfl⟩ := List.mem_map.mp hmem
      exact hdisj r hr ha
  · rw [expandedIds001, List.length_map]
    exact expandUnits_length o

theorem c1_fanout_witness :
    ((processOrderInBackground orderAB okRender okSubmit []).1).map
        (fun r => r.job_attempt_id)
      = ([] : List MJob).map (fun r => r.job_attempt_id) ++ expandedIds001 orderAB
    ∧ (expandedIds001 orderAB).length = sumQ orderAB
    ∧ (expandedIds001 orderAB).Nodup :=
  c1_fanout orderAB okRender okSubmit [] (by decide)
    (fun r hr => absurd hr (List.not_mem_nil r))

/-- C1 counterexample: `orderNN` has two line items without ids and total
quantity 2, but the MongoDB engine derives the same attempt id
`#77-no-id-1` for both, so the unique index drops the second row and a single
pass creates 1 record, not `Σ qᵢ = 2`. -/
theorem c1_fanout_cex :
    ((processOrderInBackground orderNN okRender okSubmit []).1).length = 1
    ∧ sumQ orderNN = 2 := by
  constructor <;> rfl

/-! ## Proofs: idempotent intake (duplicate webhooks) -/

theorem any_order_eq_true (store : List MJob) (ord : String)
    (h : ∃ r ∈ store, r.order_id = ord) :
    store.any (fun r => r.order_id = ord) = true := by
  obtain ⟨r, hr, he⟩ := h
  rw [List.any_eq_true]
  exact ⟨r, hr, by simp [he]⟩

/-- C2 (amended): a webhook for an order that already has an attempt record
is acknowledged with 200 "Duplicate webhook ignored." and writes nothing; and
— provided the line items' derived keys are pairwise distinct — submitting
the identical payload twice starting from an empty store yields exactly
`Σ qᵢ` rows, not `2 × Σ qᵢ`.  (With colliding keys the first pass already
stores fewer than `Σ qᵢ` rows; see the counterexample.) -/
theorem c2_idempotent (o : Order) :
    (∀ (ro : Nat → Nat → Except String Unit) (so : Nat → Nat → Except String Nat)
        (store : List MJob), (∃ r ∈ store, r.order_id = orderNumberOf o) →
        webhook001 o ro so store = (store, ⟨200, "Duplicate webhook ignored."⟩))
    ∧ (∀ (ro₁ : Nat → Nat → Except String Unit) (so₁ : Nat → Nat → Except String Nat)
        (ro₂ : Nat → Nat → Except String Unit) (so₂ : Nat → Nat → Except String Nat),
        (o.line_items.map key001).Nodup →
        ((webhook001 o ro₂ so₂ (webhook001 o ro₁ so₁ []).1).1).length = sumQ o) := by
  constructor
  · intro ro so store h
    have := any_order_eq_true store (orderNumberOf o) h
    simp [webhook001, this]
  · intro ro₁ so₁ ro₂ so₂ hkeys
    have hids : ∀ (ro : Nat → Nat → Except String Unit)
        (so : Nat → Nat → Except String Nat),
        ((processOrderInBackground o ro so []).1).map (fun r => r.job_attempt_id)
          = expandedIds001 o := by
      intro ro so
      have h := runUnits001_ids (orderNumberOf o) (orderInfo001 o) ro so
        (expandUnits o.line_items) []
        (expandAux_ids_nodup (orderNumberOf o) o.line_items 0 hkeys)
        (by intro a _ hmem; simpa using hmem)
      simpa using h
    have hlen : ∀ (ro : Nat → Nat → Except String Unit)
        (so : Nat → Nat → Except String Nat),
        ((processOrderInBackground o ro so []).1).length = sumQ o := by
      intro ro so
      have := congrArg List.length (hids ro so)
      rw [List.length_map] at this
      rw [this, expandedIds001, List.length_map]
      exact expandUnits_length o
    have h1 : webhook001 o ro₁ so₁ []
        = ((processOrderInBackground o ro₁ so₁ []).1,
           ⟨200, "Order " ++ orderNumberOf o ++ " accepted."⟩) := by
      simp [webhook001]
    rw [h1]
    by_cases h2 : (processOrderInBackground o ro₁ so₁ []).1.any
        (fun r => r.order_id = orderNumberOf o) = true
    · simp only [webhook001, h2, if_pos rfl]
      exact hlen ro₁ so₁
    · have hempty : (processOrderInBackground o ro₁ so₁ []).1 = [] := by
        cases hs : (processOrderInBackground o ro₁ so₁ []).1 with
        | nil => rfl
        | cons r t =>
          exfalso
          apply h2
          apply any_order_eq_true
          refine ⟨r, by rw [hs]; exact List.mem_cons_self r t, ?_⟩
          have hm : r ∈ (processOrderInBackground o ro₁ so₁ []).1 := by
            rw [hs]; exact List.mem_cons_self r t
          rcases runUnits001_mem (orderNumberOf o) (orderInfo001 o) ro₁ so₁
            (expandUnits o.line_items) [] r hm with hr | hr
          · exact absurd hr (List.not_mem_nil r)
          · exact hr
      rw [hempty]
      have h3 : webhook001 o ro₂ so₂ []
          = ((processOrderInBackground o ro₂ so₂ []).1,
             ⟨200, "Order " ++ orderNumberOf o ++ " accepted."⟩) := by
        simp [webhook001]
      rw [h3]
      exact hlen ro₂ so₂

theorem c2_idempotent_witness :
    webhook001 orderAB okRender okSubmit [mongoFailedJob]
      = ([mongoFailedJob], ⟨200, "Duplicate webhook ignored."⟩)
    ∧ ((webhook001 orderAB okRender okSubmit
          (webhook001 orderAB okRender okSubmit []).1).1).length = sumQ orderAB :=
  ⟨(c2_idempotent orderAB).1 okRender okSubmit [mongoFailedJob]
      ⟨mongoFailedJob, List.mem_cons_self _ _, by decide⟩,
   (c2_idempotent orderAB).2 okRender okSubmit okRender okSubmit (by decide)⟩

/-- C2 counterexample: resubmitting `orderNN` (two id-less items, `Σ qᵢ = 2`)
leaves 1 stored row after two webhook deliveries, because the first pass
already collapses both units onto one attempt id. -/
theorem c2_idempotent_cex :
    ((webhook001 orderNN okRender okSubmit
        (webhook001 orderNN okRender okSubmit []).1).1).length = 1
    ∧ sumQ orderNN = 2 := by
  constructor <;> rfl

/-! ## Proofs: partial-failure isolation and result counts -/

theorem run000_results (ord : String) (info : OrderInfo)
    (ro : Nat → Nat → Except String Unit) (so : Nat → Nat → Except String Nat) :
    ∀ (units : List (Nat × LineItem × Nat)) (store results : List MemJob),
      (run000 ord info ro so units store results).2
        = results ++ units.map
            (fun u => mkRecord000 ord info u.2.1 u.1 u.2.2 (unitOutcome ro so u.1 u.2.2)) := by
  intro units
  induction units with
  | nil => intro store results; simp [run000]
  | cons u rest ih =>
    intro store results
    obtain ⟨i, item, j⟩ := u
    simp [run000, ih]

theorem length_filter_of_map (l : List α) (f : α → β) (p : β → Bool) :
    ((l.map f).filter p).length = (l.filter (fun a => p (f a))).length := by
  induction l with
  | nil => rfl
  | cons a t ih =>
    by_cases h : p (f a) = true <;> simp [h, ih]

theorem mkRecord000_sent_eq (ord : String) (info : OrderInfo) (item : LineItem)
    (i j : Nat) (out : Except String Nat) :
    decide ((mkRecord000 ord info item i j out).status = MemStatus.sent) = isOkB out := by
  cases out <;> rfl

theorem mkRecord000_failed_eq (ord : String) (info : OrderInfo) (item : LineItem)
    (i j : Nat) (out : Except String Nat) :
    decide ((mkRecord000 ord info item i j out).status = MemStatus.failed) = !isOkB out := by
  cases out <;> rfl

/-- C5: if rendering or submission fails for a unit, that unit's record ends
`failed` with the error message populated; every other unit is still processed
to its own record (the response's results are exactly one record per expanded
unit, each a function of that unit's own outcome, so a sibling with a
succeeding client ends `sent` with its vendor job id); and the webhook
answers 200 with printed/failed counts instead of failing the whole order. -/
theorem c5_partial_failure (o : Order)
    (ro : Nat → Nat → Except String Unit) (so : Nat → Nat → Except String Nat)
    (store : List MemJob) (i j : Nat) (item : LineItem) (e : String)
    (hmem : (i, item, j) ∈ expandUnits o.line_items)
    (hfail : unitOutcome ro so i j = Except.error e) :
    ((webhook000 o ro so store).2).status = 200
    ∧ ((webhook000 o ro so store).2).results
        = (expandUnits o.line_items).map
            (fun u => mkRecord000 (orderNumberOf o) (orderInfo000 o) u.2.1 u.1 u.2.2
              (unitOutcome ro so u.1 u.2.2))
    ∧ (mkRecord000 (orderNumberOf o) (orderInfo000 o) item i j
        (unitOutcome ro so i j)).status = MemStatus.failed
    ∧ (mkRecord000 (orderNumberOf o) (orderInfo000 o) item i j
        (unitOutcome ro so i j)).error = some e
    ∧ mkRecord000 (orderNumberOf o) (orderInfo000 o) item i j (unitOutcome ro so i j)
        ∈ ((webhook000 o ro so store).2).results
    ∧ (∀ (i' j' : Nat) (item' : LineItem) (v : Nat),
        (i', item', j') ∈ expandUnits o.line_items →
        unitOutcome ro so i' j' = Except.ok v →
        (mkRecord000 (orderNumberOf o) (orderInfo000 o) item' i' j'
          (unitOutcome ro so i' j')).status = MemStatus.sent
        ∧ (mkRecord000 (orderNumberOf o) (orderInfo000 o) item' i' j'
            (unitOutcome ro so i' j')).id = some v
        ∧ mkRecord000 (orderNumberOf o) (orderInfo000 o) item' i' j'
            (unitOutcome ro so i' j') ∈ ((webhook000 o ro so store).2).results)
    ∧ ((webhook000 o ro so store).2).printed
        = ((expandUnits o.line_items).filter
            (fun u => isOkB (unitOutcome ro so u.1 u.2.2))).length
    ∧ ((webhook000 o ro so store).2).failed
        = ((expandUnits o.line_items).filter
            (fun u => !isOkB (unitOutcome ro so u.1 u.2.2))).length := by
  have hres : ((webhook000 o ro so store).2).results
      = (expandUnits o.line_items).map
          (fun u => mkRecord000 (orderNumberOf o) (orderInfo000 o) u.2.1 u.1 u.2.2
            (unitOutcome ro so u.1 u.2.2)) := by
    show (run000 (orderNumberOf o) (orderInfo000 o) ro so
        (expandUnits o.line_items) store []).2 = _
    rw [run000_results]
    simp
  refine ⟨rfl, hres, ?_, ?_, ?_, ?_, ?_, ?_⟩
  · rw [hfail]; rfl
  · rw [hfail]; rfl
  · rw [hres]
    exact List.mem_map.mpr ⟨(i, item, j), hmem, rfl⟩
  · intro i' j' item' v hmem' hok
    refine ⟨by rw [hok]; rfl, by rw [hok]; rfl, ?_⟩
    rw [hres]
    exact List.mem_map.mpr ⟨(i', item', j'), hmem', rfl⟩
  · show ((run000 (orderNumberOf o) (orderInfo000 o) ro so
        (expandUnits o.line_items) store []).2.filter
          (fun r => r.status = MemStatus.sent)).length = _
    rw [run000_results]
    simp only [List.nil_append]
    rw [length_filter_of_map]
    congr 1
    apply List.filter_congr
    intro u _
    exact mkRecord000_sent_eq _ _ _ _ _ _
  · show ((run000 (orderNumberOf o) (orderInfo000 o) ro so
        (expandUnits o.line_items) store []).2.filter
          (fun r => r.status = MemStatus.failed)).length = _
    rw [run000_results]
    simp only [List.nil_append]
    rw [length_filter_of_map]
    congr 1
    apply List.filter_congr
    intro u _
    exact mkRecord000_failed_eq _ _ _ _ _ _

theorem c5_partial_failure_witness :
    (webhook000 orderAB okRender failSubmit00 []).2.status = 200
    ∧ (webhook000 orderAB okRender failSubmit00 []).2.printed = 2
    ∧ (webhook000 orderAB okRender failSubmit00 []).2.failed = 1 := by
  have h := c5_partial_failure orderAB okRender failSubmit00 [] 0 0 itemA "boom"
    (by decide) (by rfl)
  obtain ⟨h1, _, _, _, _, _, h7, h8⟩ := h
  refine ⟨h1, ?_, ?_⟩
  · rw [h7]; rfl
  · rw [h8]; rfl

/-! ## Proofs: retry endpoints -/

theorem find?_updateFirst (p : α → Bool) (f : α → α)
    (hp : ∀ x, p x = true → p (f x) = true) :
    ∀ (l : List α) (a : α), l.find? p = some a →
      (updateFirst p f l).find? p = some (f a) := by
  intro l
  induction l with
  | nil => intro a h; simp at h
  | cons x xs ih =>
    intro a h
    by_cases hx : p x = true
    · rw [List.find?_cons_of_pos _ hx] at h
      injection h with h
      subst h
      simp only [updateFirst, hx, if_pos]
      exact List.find?_cons_of_pos _ (hp x hx)
    · rw [List.find?_cons_of_neg _ (by simpa using hx)] at h
      simp only [updateFirst, hx, if_neg, Bool.false_eq_true, not_false_eq_true]
      rw [List.find?_cons_of_neg _ (by simpa using hx)]
      exact ih a h

theorem retry000_ok_state (store : List MemJob) (aid : String) (j : MemJob)
    (snap : Snapshot) (v : Nat)
    (hfind : findJob000 store aid = some j)
    (hst : j.status = MemStatus.failed)
    (hsnap : j.retryData = some snap) :
    retry000 aid (Except.ok v) store
      = (updateFirst (fun r => r.jobAttemptId = aid)
          (fun r =>
            { r with
              id := some v
              status := MemStatus.sent
              error := none
              retryData := none }) store,
         ⟨200⟩) := by
  unfold retry000
  rw [hfind]
  simp [hst, hsnap]

theorem retry000_error_state (store : List MemJob) (aid : String) (j : MemJob)
    (snap : Snapshot) (e : String)
    (hfind : findJob000 store aid = some j)
    (hst : j.status = MemStatus.failed)
    (hsnap : j.retryData = some snap) :
    retry000 aid (Except.error e) store
      = (updateFirst (fun r => r.jobAttemptId = aid)
          (fun r => { r with error := some e }) store,
         ⟨500⟩) := by
  unfold retry000
  rw [hfind]
  simp [hst, hsnap]

/-- C6: retrying a `failed` attempt that has a retry snapshot with a
now-succeeding submission client answers 200 and transitions that attempt, in
place, to `sent` with the vendor job identifier returned by the client. -/
theorem c6_retry_recovery (store : List MemJob) (aid : String) (j : MemJob)
    (snap : Snapshot) (v : Nat)
    (hfind : findJob000 store aid = some j)
    (hst : j.status = MemStatus.failed)
    (hsnap : j.retryData = some snap) :
    (retry000 aid (Except.ok v) store).2 = ⟨200⟩
    ∧ findJob000 (retry000 aid (Except.ok v) store).1 aid
        = some { j with
                 id := some v
                 status := MemStatus.sent
                 error := none
                 retryData := none } := by
  rw [retry000_ok_state store aid j snap v hfind hst hsnap]
  refine ⟨rfl, ?_⟩
  have hfind' : store.find? (fun r => r.jobAttemptId = aid) = some j := hfind
  exact find?_updateFirst (fun r => r.jobAttemptId = aid)
    (fun r =>
      { r with
        id := some v
        status := MemStatus.sent
        error := none
        retryData := none })
    (fun x hx => hx) store j hfind'

theorem c6_retry_recovery_witness :
    (retry000 "#1001-11-1" (Except.ok 5) [failedJob]).2 = ⟨200⟩
    ∧ findJob000 (retry000 "#1001-11-1" (Except.ok 5) [failedJob]).1 "#1001-11-1"
        = some { failedJob with
                 id := some 5
                 status := MemStatus.sent
                 error := none
                 retryData := none } :=
  c6_retry_recovery [failedJob] "#1001-11-1" failedJob
    ⟨itemA, orderInfo000 orderAB⟩ 5 (by rfl) (by rfl) (by rfl)

/-- C7: a retry whose re-submission fails again leaves the attempt `failed`
with its snapshot intact, so the retry can be repeated arbitrarily often
without losing the snapshot (shown for any number `n` of consecutive failing
retries of the in-memory variant); in the MongoDB variants a failing retry
leaves the whole store untouched and answers 500. -/
theorem c7_retry_repeatable :
    (∀ (store : List MemJob) (aid : String) (j : MemJob) (snap : Snapshot)
        (es : Nat → String),
        findJob000 store aid = some j → j.status = MemStatus.failed →
        j.retryData = some snap →
        ∀ n : Nat, stillRetriable snap (findJob000 (retryFailN aid es store n) aid))
    ∧ (∀ (store : List MJob) (aid : String) (j : MJob) (snap : Snapshot)
        (ts : Nat) (e : String),
        findJob001 store aid = some j → j.retry_data = some snap →
        retry001 aid ts (Except.error e) store = (store, ⟨500⟩)) := by
  constructor
  · intro store aid j snap es hfind hst hsnap n
    induction n generalizing store j es with
    | zero =>
      show stillRetriable snap (findJob000 store aid)
      rw [hfind]
      exact ⟨hst, hsnap⟩
    | succ n ih =>
      show stillRetriable snap
        (findJob000 (retryFailN aid (fun k => es k) (retry000 aid (Except.error (es n)) store).1 n) aid)
      rw [retry000_error_state store aid j snap (es n) hfind hst hsnap]
      apply ih
      · have hfind' : store.find? (fun r => r.jobAttemptId = aid) = some j := hfind
        exact find?_updateFirst (fun r => r.jobAttemptId = aid)
          (fun r => { r with error := some (es n) })
          (fun x hx => hx) store j hfind'
      · exact hst
      · exact hsnap
  · intro store aid j snap ts e hfind hsnap
    unfold retry001
    rw [hfind]
    simp [hsnap]

theorem c7_retry_repeatable_witness :
    stillRetriable ⟨itemA, orderInfo000 orderAB⟩
      (findJob000 (retryFailN "#1001-11-1" (fun _ => "still down") [failedJob] 3)
        "#1001-11-1")
    ∧ retry001 "#1001-11-1" 7 (Except.error "still down") [mongoFailedJob]
        = ([mongoFailedJob], ⟨500⟩) :=
  ⟨c7_retry_repeatable.1 [failedJob] "#1001-11-1" failedJob
      ⟨itemA, orderInfo000 orderAB⟩ (fun _ => "still down") (by rfl) (by rfl) (by rfl) 3,
   c7_retry_repeatable.2 [mongoFailedJob] "#1001-11-1" mongoFailedJob
      ⟨itemA, orderInfo001 orderAB⟩ 7 "still down" (by rfl) (by rfl)⟩

/-- C8 counterexample: in the MongoDB variants an attempt that exists but has
no stored retry snapshot is answered 404 ("Job not found or not retryable."),
not 400 as the claim states. -/
theorem c8_cex :
    findJob001 [mongoNoSnapJob] "J1" = some mongoNoSnapJob
    ∧ mongoNoSnapJob.retry_data = none
    ∧ (retry001 "J1" 0 (Except.ok 3) [mongoNoSnapJob]).2.status = 404
    ∧ ¬ (retry001 "J1" 0 (Except.ok 3) [mongoNoSnapJob]).2.status = 400 := by
  refine ⟨rfl, rfl, rfl, ?_⟩
  decide

/-- C8 (amended): the retry endpoint answers 404 when no attempt has the
identifier; the in-memory variant answers 400 when the attempt is not
`failed` or has no snapshot, while the MongoDB variants answer 404 when the
snapshot is missing (folded into not-found); both answer 200 when
re-submission succeeds (in the MongoDB variants, provided the fresh retry id
is itself unused) and 500 when it fails. -/
theorem c8_retry_status_codes :
    (∀ (store : List MemJob) (aid : String) (out : Except String Nat),
        findJob000 store aid = none → retry000 aid out store = (store, ⟨404⟩))
    ∧ (∀ (store : List MemJob) (aid : String) (out : Except String Nat) (j : MemJob),
        findJob000 store aid = some j → j.status ≠ MemStatus.failed →
        retry000 aid out store = (store, ⟨400⟩))
    ∧ (∀ (store : List MemJob) (aid : String) (out : Except String Nat) (j : MemJob),
        findJob000 store aid = some j → j.status = MemStatus.failed →
        j.retryData = none → retry000 aid out store = (store, ⟨400⟩))
    ∧ (∀ (store : List MemJob) (aid : String) (v : Nat) (j : MemJob) (snap : Snapshot),
        findJob000 store aid = some j → j.status = MemStatus.failed →
        j.retryData = some snap → (retry000 aid (Except.ok v) store).2 = ⟨200⟩)
    ∧ (∀ (store : List MemJob) (aid : String) (e : String) (j : MemJob) (snap : Snapshot),
        findJob000 store aid = some j → j.status = MemStatus.failed →
        j.retryData = some snap → (retry000 aid (Except.error e) store).2 = ⟨500⟩)
    ∧ (∀ (store : List MJob) (aid : String) (ts : Nat) (out : Except String Nat),
        findJob001 store aid = none → retry001 aid ts out store = (store, ⟨404⟩))
    ∧ (∀ (store : List MJob) (aid : String) (ts : Nat) (out : Except String Nat) (j : MJob),
        findJob001 store aid = some j → j.retry_data = none →
        retry001 aid ts out store = (store, ⟨404⟩))
    ∧ (∀ (store : List MJob) (aid : String) (ts v : Nat) (j : MJob) (snap : Snapshot),
        findJob001 store aid = some j → j.retry_data = some snap →
        store.any (fun r => r.job_attempt_id
          = j.job_attempt_id ++ "-retry-" ++ natStr ts) = false →
        (retry001 aid ts (Except.ok v) store).2 = ⟨200⟩)
    ∧ (∀ (store : List MJob) (aid : String) (ts : Nat) (e : String) (j : MJob)
        (snap : Snapshot),
        findJob001 store aid = some j → j.retry_data = some snap →
        retry001 aid ts (Except.error e) store = (store, ⟨500⟩)) := by
  refine ⟨?_, ?_, ?_, ?_, ?_, ?_, ?_, ?_, ?_⟩
  · intro store aid out hfind
    unfold retry000
    rw [hfind]
  · intro store aid out j hfind hst
    unfold retry000
    rw [hfind]
    simp [hst]
  · intro store aid out j hfind hst hsnap
    unfold retry000
    rw [hfind]
    simp [hst, hsnap]
  · intro store aid v j snap hfind hst hsnap
    rw [retry000_ok_state store aid j snap v hfind hst hsnap]
  · intro store aid e j snap hfind hst hsnap
    rw [retry000_error_state store aid j snap e hfind hst hsnap]
  · intro store aid ts out hfind
    unfold retry001
    rw [hfind]
  · intro store aid ts out j hfind hsnap
    unfold retry001
    rw [hfind]
    simp [hsnap]
  · intro store aid ts v j snap hfind hsnap hnew
    unfold retry001
    rw [hfind]
    simp [hsnap, hnew]
  · intro store aid ts e j snap hfind hsnap
    unfold retry001
    rw [hfind]
    simp [hsnap]

theorem c8_retry_status_codes_witness :
    retry000 "missing" (Except.ok 1) [failedJob] = ([failedJob], ⟨404⟩)
    ∧ retry000 "#1001-11-2" (Except.ok 1) [sentJob] = ([sentJob], ⟨400⟩)
    ∧ retry000 "#1001-11-1" (Except.ok 1) [{ failedJob with retryData := none }]
        = ([{ failedJob with retryData := none }], ⟨400⟩)
    ∧ (retry000 "#1001-11-1" (Except.ok 5) [failedJob]).2 = ⟨200⟩
    ∧ (retry000 "#1001-11-1" (Except.error "x") [failedJob]).2 = ⟨500⟩
    ∧ retry001 "missing" 0 (Except.ok 1) [mongoFailedJob] = ([mongoFailedJob], ⟨404⟩)
    ∧ retry001 "J1" 0 (Except.ok 1) [mongoNoSnapJob] = ([mongoNoSnapJob], ⟨404⟩)
    ∧ (retry001 "#1001-11-1" 7 (Except.ok 5) [mongoFailedJob]).2 = ⟨200⟩
    ∧ retry001 "#1001-11-1" 7 (Except.error "x") [mongoFailedJob]
        = ([mongoFailedJob], ⟨500⟩) :=
  ⟨c8_retry_status_codes.1 [failedJob] "missing" (Except.ok 1) (by rfl),
   c8_retry_status_codes.2.1 [sentJob] "#1001-11-2" (Except.ok 1) sentJob
     (by rfl) (by decide),
   c8_retry_status_codes.2.2.1 [{ failedJob with retryData := none }] "#1001-11-1"
     (Except.ok 1) { failedJob with retryData := none } (by rfl) (by rfl) (by rfl),
   c8_retry_status_codes.2.2.2.1 [failedJob] "#1001-11-1" 5 failedJob
     ⟨itemA, orderInfo000 orderAB⟩ (by rfl) (by rfl) (by rfl),
   c8_retry_status_codes.2.2.2.2.1 [failedJob] "#1001-11-1" "x" failedJob
     ⟨itemA, orderInfo000 orderAB⟩ (by rfl) (by rfl) (by rfl),
   c8_retry_status_codes.2.2.2.2.2.1 [mongoFailedJob] "missing" 0 (Except.ok 1)
     (by rfl),
   c8_retry_status_codes.2.2.2.2.2.2.1 [mongoNoSnapJob] "J1" 0 (Except.ok 1)
     mongoNoSnapJob (by rfl) (by rfl),
   c8_retry_status_codes.2.2.2.2.2.2.2.1 [mongoFailedJob] "#1001-11-1" 7 5
     mongoFailedJob ⟨itemA, orderInfo001 orderAB⟩ (by rfl) (by rfl) (by decide),
   c8_retry_status_codes.2.2.2.2.2.2.2.2 [mongoFailedJob] "#1001-11-1" 7 "x"
     mongoFailedJob ⟨itemA, orderInfo001 orderAB⟩ (by rfl) (by rfl)⟩

/-- C9: in the MongoDB variants, a successful retry appends a single fresh
record — id `<original>-retry-<timestamp>`, status `sent`, the returned
vendor job id, and a copy of the original snapshot — while the stored records,
including the original attempt with its `failed` status, error message and
snapshot, are left exactly as they were. -/
theorem c9_retry_append (store : List MJob) (aid : String) (j : MJob)
    (snap : Snapshot) (ts v : Nat)
    (hfind : findJob001 store aid = some j)
    (hsnap : j.retry_data = some snap)
    (hnew : store.any (fun r => r.job_attempt_id
        = j.job_attempt_id ++ "-retry-" ++ natStr ts) = false) :
    retry001 aid ts (Except.ok v) store
      = (store ++ [retryRecord j snap (j.job_attempt_id ++ "-retry-" ++ natStr ts) v],
         ⟨200⟩)
    ∧ (retryRecord j snap (j.job_attempt_id ++ "-retry-" ++ natStr ts) v).status
        = MStatus.sent
    ∧ (retryRecord j snap (j.job_attempt_id ++ "-retry-" ++ natStr ts) v).printnode_job_id
        = some v
    ∧ (retryRecord j snap (j.job_attempt_id ++ "-retry-" ++ natStr ts) v).retry_data
        = some snap := by
  refine ⟨?_, rfl, rfl, rfl⟩
  unfold retry001
  rw [hfind]
  simp [hsnap, hnew]

theorem c9_retry_append_witness :
    retry001 "#1001-11-1" 7 (Except.ok 5) [mongoFailedJob]
      = ([mongoFailedJob] ++ [retryRecord mongoFailedJob ⟨itemA, orderInfo001 orderAB⟩
          (mongoFailedJob.job_attempt_id ++ "-retry-" ++ natStr 7) 5],
         ⟨200⟩)
    ∧ (retryRecord mongoFailedJob ⟨itemA, orderInfo001 orderAB⟩
        (mongoFailedJob.job_attempt_id ++ "-retry-" ++ natStr 7) 5).status = MStatus.sent
    ∧ (retryRecord mongoFailedJob ⟨itemA, orderInfo001 orderAB⟩
        (mongoFailedJob.job_attempt_id ++ "-retry-" ++ natStr 7) 5).printnode_job_id
        = some 5
    ∧ (retryRecord mongoFailedJob ⟨itemA, orderInfo001 orderAB⟩
        (mongoFailedJob.job_attempt_id ++ "-retry-" ++ natStr 7) 5).retry_data
        = some ⟨itemA, orderInfo001 orderAB⟩ :=
  c9_retry_append [mongoFailedJob] "#1001-11-1" mongoFailedJob
    ⟨itemA, orderInfo001 orderAB⟩ 7 5 (by rfl) (by rfl) (by decide)

/-- C10: the in-memory variant's retry endpoint answers 400 for any attempt
whose status is not `failed` — in particular a `sent` attempt can never be
re-submitted — and leaves the job store unchanged, whatever the submission
client would have returned. -/
theorem c10_reject_non_failed (store : List MemJob) (aid : String)
    (out : Except String Nat) (j : MemJob)
    (hfind : findJob000 store aid = some j)
    (hst : j.status ≠ MemStatus.failed) :
    retry000 aid out store = (store, ⟨400⟩) := by
  unfold retry000
  rw [hfind]
  simp [hst]

theorem c10_reject_non_failed_witness :
    retry000 "#1001-11-2" (Except.ok 9) [sentJob] = ([sentJob], ⟨400⟩) :=
  c10_reject_non_failed [sentJob] "#1001-11-2" (Except.ok 9) sentJob
    (by rfl) (by decide)

end PrintRelay
